import Mathlib

/-!
Shallow embedding of `src/kvraft/server.go` (MIT 6.824 Lab 3 key/value
server): the apply loop with per-client deduplication, the Get/PutAppend
request handlers' post-delivery logic, and the snapshot manager
(`getSnapshot`, `readSnapshot`, `snapshotCheck`).

Go maps are embedded as association lists with first-match lookup
(`aget`, with an explicit default for absent keys, matching Go's
zero-value semantics) and in-place update (`aset`).  Go `int`/`int64`
are embedded as `Int` (no claim here depends on machine overflow).
The float32 threshold comparison in `snapshotCheck` is embedded over `ℚ`
with the exact constant 7/10.
-/

set_option autoImplicit false

namespace KVRaft

/-- Association-list lookup with default `d`: the embedding of a Go map
read `m[k]`, whose result for an absent key is the zero value. -/
def aget {α β : Type} [DecidableEq α] (d : β) : List (α × β) → α → β
  | [], _ => d
  | (k', v) :: rest, k => if k' = k then v else aget d rest k

/-- Association-list update: the embedding of a Go map write `m[k] = v`
(replaces the existing binding, or appends a new one). -/
def aset {α β : Type} [DecidableEq α] : List (α × β) → α → β → List (α × β)
  | [], k, v => [(k, v)]
  | (k', v') :: rest, k, v =>
      if k' = k then (k, v) :: rest else (k', v') :: aset rest k v

@[simp] theorem aget_aset_self {α β : Type} [DecidableEq α] (d : β)
    (m : List (α × β)) (k : α) (v : β) : aget d (aset m k v) k = v := by
  induction m with
  | nil => simp [aget, aset]
  | cons hd tl ih =>
      obtain ⟨k', v'⟩ := hd
      by_cases h : k' = k <;> simp [aget, aset, h, ih]

theorem aget_aset_ne {α β : Type} [DecidableEq α] (d : β)
    (m : List (α × β)) (k k' : α) (v : β) (h : k' ≠ k) :
    aget d (aset m k v) k' = aget d m k' := by
  have hk : ¬ (k = k') := fun hh => h hh.symm
  induction m with
  | nil => simp [aget, aset, hk]
  | cons hd tl ih =>
      obtain ⟨k₀, v₀⟩ := hd
      by_cases h₀ : k₀ = k
      · subst h₀
        simp [aget, aset, hk, h]
      · by_cases h₁ : k₀ = k' <;> simp [aget, aset, h₀, h₁, h, ih]

/-- The operation-type constant `GET` of `server.go`. -/
def GET : String := "Get"

/-- The operation-type constant `PUT` of `server.go`. -/
def PUT : String := "Put"

/-- The operation-type constant `APPEND` of `server.go`. -/
def APPEND : String := "Append"

/-- The `Op` struct of `server.go`: the command submitted to and
committed by Raft.  Go field names `Type/Key/Value/Cid/Seq` become
`type/key/value/cid/seq`. -/
structure Op where
  type : String
  key : String
  value : String
  cid : Int
  seq : Int
deriving DecidableEq, Repr

/-- The method `Op.sameAs` of `server.go`: command identity is
`(Cid, Seq)` only. -/
def Op.sameAs (a b : Op) : Bool :=
  a.cid = b.cid && a.seq = b.seq

/-- The store of `KVServer`: Go `map[string]string`. -/
abbrev StoreMap := List (String × String)

/-- The dedup table of `KVServer`: Go `map[int64]int`. -/
abbrev SeqMap := List (Int × Int)

/-- The mutable state-machine state of `KVServer` guarded by `kv.mu`:
the key/value `store` and the per-client dedup table `clientSeqMap`. -/
structure KVState where
  store : StoreMap
  clientSeqMap : SeqMap
deriving DecidableEq, Repr

/-- Modelled from the spec: a field of the snapshot byte blob produced
by the `labgob` encoder, which is not under `src/`.  Each `Encode` call
appends one typed field; `Decode` into a variable of the wrong type
fails.  The two field types that occur are the store map and the
client-sequence map. -/
inductive Field where
  | storeF : StoreMap → Field
  | seqF : SeqMap → Field
deriving DecidableEq, Repr

/-- Modelled from the spec: the snapshot byte blob is the sequential
encoding of its fields (`labgob` is not under `src/`). -/
abbrev Blob := List Field

/-- The method `KVServer.getSnapshot` of `server.go`: encode the store,
then the client-sequence map, as two sequential fields of one blob. -/
def getSnapshot (kv : KVState) : Blob :=
  [Field.storeF kv.store, Field.seqF kv.clientSeqMap]

/-- Modelled from the spec: the `labgob` decoder side of
`readSnapshot` (not under `src/`).  Decoding reads the first field into
`store` and the second into `clientSeqMap`, failing (`none`) if either
field is missing or of the wrong type; per Go's short-circuit `||`, a
failed first decode means the second is not attempted. -/
def decodeSnapshot : Blob → Option (StoreMap × SeqMap)
  | Field.storeF s :: Field.seqF c :: _ => some (s, c)
  | _ => none

/-- The method `KVServer.readSnapshot` of `server.go`: a nil/empty
payload returns immediately; a decode failure of either field leaves
the state untouched (logging only); otherwise both `store` and
`clientSeqMap` are replaced by the decoded values. -/
def readSnapshot (kv : KVState) (data : Blob) : KVState :=
  if data.length < 1 then kv
  else
    match decodeSnapshot data with
    | none => kv
    | some (s, c) => { store := s, clientSeqMap := c }

/-- The method `KVServer.snapshotCheck` of `server.go`: with
`threshold = 0.7`, if `maxraftstate > -1` and the persister's current
Raft state size exceeds `maxraftstate * threshold`, request
`rf.TakeSnapshot(lastAppliedIndex, kv.getSnapshot())`.  The issued
request (or `none`) is returned; the float32 arithmetic of the source
is embedded exactly over `ℚ` with threshold 7/10. -/
def snapshotCheck (maxraftstate raftStateSize : Int) (kv : KVState)
    (lastAppliedIndex : Int) : Option (Int × Blob) :=
  if (maxraftstate : ℚ) > -1 ∧
      (raftStateSize : ℚ) > (maxraftstate : ℚ) * (7 / 10) then
    some (lastAppliedIndex, getSnapshot kv)
  else none

/-- A notification read from `applyCh` in `applyCommitted`: either a
committed command with its log index (`msg.CommandValid`), or an
out-of-band snapshot install carrying opaque bytes. -/
inductive ApplyMsg where
  | command (index : Int) (op : Op)
  | snapshot (data : Blob)
deriving DecidableEq, Repr

/-- The outcome of one iteration of the `applyCommitted` loop body:
the updated state, the command (with index) sent into the wait channel
`waitChans[msg.CommandIndex]` if any, and the compaction request issued
by `snapshotCheck` if any. -/
structure StepResult where
  state : KVState
  delivered : Option (Int × Op)
  compaction : Option (Int × Blob)
deriving DecidableEq, Repr

/-- One iteration of the `applyCommitted` loop body of `server.go`.
For a command commit: if `op.Seq > clientSeqMap[op.Cid]` the switch on
`op.Type` runs (`GET` does nothing, `PUT` assigns, `APPEND`
concatenates onto the previous value, absent key read as `""`) and then
`clientSeqMap[op.Cid] = op.Seq`; otherwise the mutation is skipped as a
duplicate.  Then, for `GET`, `op.Value` is set to the current
`store[op.Key]`; `snapshotCheck` runs on the post-mutation state; and
the (possibly updated) op is sent to the wait channel for
`msg.CommandIndex`.  For a snapshot install: `readSnapshot` runs and no
wait channel is involved. -/
def applyCommitted (maxraftstate raftStateSize : Int) (kv : KVState) :
    ApplyMsg → StepResult
  | ApplyMsg.command index op =>
      let kv' : KVState :=
        if op.seq > aget 0 kv.clientSeqMap op.cid then
          let store' : StoreMap :=
            if op.type = PUT then aset kv.store op.key op.value
            else if op.type = APPEND then
              aset kv.store op.key (aget "" kv.store op.key ++ op.value)
            else kv.store
          { store := store', clientSeqMap := aset kv.clientSeqMap op.cid op.seq }
        else kv
      let op' : Op :=
        if op.type = GET then { op with value := aget "" kv'.store op.key }
        else op
      { state := kv'
        delivered := some (index, op')
        compaction := snapshotCheck maxraftstate raftStateSize kv' index }
  | ApplyMsg.snapshot data =>
      { state := readSnapshot kv data
        delivered := none
        compaction := none }

/-- Modelled from the spec: the result code `OK` of `kvraft/common.go`,
which is not under `src/`; the codes are string values. -/
def OK : String := "OK"

/-- Modelled from the spec: the result code for a Get whose resolved
value is absent/empty (`ErrNoKey` in the source, `NoSuchKey` in the
spec); `kvraft/common.go` is not under `src/`. -/
def ErrNoKey : String := "NoSuchKey"

/-- Modelled from the spec: the leader-related failure code
(`ErrWrongLeader` in the source, `NotLeader` in the spec);
`kvraft/common.go` is not under `src/`.  The zero value of the
string-typed result code, left when no branch assigns it, is `""`. -/
def ErrWrongLeader : String := "NotLeader"

/-- The `GetArgs` fields used by `server.go`: `Key`, `Cid`, `Seq`. -/
structure GetArgs where
  key : String
  cid : Int
  seq : Int
deriving DecidableEq, Repr

/-- The `GetReply` fields used by `server.go`: `Err`, `Value`; a fresh
reply carries the zero values `""`. -/
structure GetReply where
  err : String
  value : String
deriving DecidableEq, Repr

/-- The `PutAppendArgs` fields used by `server.go`: `Key`, `Value`,
`Op` (the mutation kind, "Put" or "Append"), `Cid`, `Seq`. -/
structure PutAppendArgs where
  key : String
  value : String
  op : String
  cid : Int
  seq : Int
deriving DecidableEq, Repr

/-- The `PutAppendReply` field used by `server.go`: `Err`. -/
structure PutAppendReply where
  err : String
deriving DecidableEq, Repr

/-- What the handler's blocking select observes: a command delivered on
the wait channel before the timeout, or the timeout firing. -/
inductive WaitOutcome where
  | delivered (appliedOp : Op)
  | timeout
deriving DecidableEq, Repr

/-- The `KVServer.Get` handler of `server.go` after `rf.Start` has
resolved (`isLeader` its leadership result) and the select has resolved
(`w`).  Not leader: `ErrWrongLeader`.  Delivered and identity matches:
`reply.Value = appliedOp.Value`, then `ErrNoKey` if that value is empty
else `OK`.  Delivered but identity differs: no field of the zero-valued
reply is assigned.  Timeout: `ErrWrongLeader`. -/
def Get (args : GetArgs) (isLeader : Bool) (w : WaitOutcome) : GetReply :=
  let op : Op :=
    { type := GET, key := args.key, value := "", cid := args.cid, seq := args.seq }
  if !isLeader then { err := ErrWrongLeader, value := "" }
  else
    match w with
    | WaitOutcome.delivered appliedOp =>
        if op.sameAs appliedOp then
          if appliedOp.value = "" then { err := ErrNoKey, value := appliedOp.value }
          else { err := OK, value := appliedOp.value }
        else { err := "", value := "" }
    | WaitOutcome.timeout => { err := ErrWrongLeader, value := "" }

/-- The `KVServer.PutAppend` handler of `server.go` after `rf.Start`
and the select have resolved.  Not leader: `ErrWrongLeader`.  Delivered
and identity matches: `OK`.  Delivered but identity differs: the
zero-valued reply is left unassigned.  Timeout: `ErrWrongLeader`. -/
def PutAppend (args : PutAppendArgs) (isLeader : Bool) (w : WaitOutcome) :
    PutAppendReply :=
  let op : Op :=
    { type := args.op, key := args.key, value := args.value,
      cid := args.cid, seq := args.seq }
  if !isLeader then { err := ErrWrongLeader }
  else
    match w with
    | WaitOutcome.delivered appliedOp =>
        if op.sameAs appliedOp then { err := OK } else { err := "" }
    | WaitOutcome.timeout => { err := ErrWrongLeader }

/-- C1: on a command-commit notification, the command's mutation (and
the `clientSeqMap` update to its sequence number) is applied iff
`op.seq` is strictly greater than `clientSeqMap[op.cid]` (default 0
when absent); when it is not greater the state is left entirely
unchanged, and in both cases a response preserving the command's
identity is delivered for that log index. -/
theorem applyCommitted_dedup_gate (mrs rss index : Int) (kv : KVState) (op : Op) :
    (op.seq > aget 0 kv.clientSeqMap op.cid →
      (applyCommitted mrs rss kv (ApplyMsg.command index op)).state =
        { store :=
            if op.type = PUT then aset kv.store op.key op.value
            else if op.type = APPEND then
              aset kv.store op.key (aget "" kv.store op.key ++ op.value)
            else kv.store
          clientSeqMap := aset kv.clientSeqMap op.cid op.seq } ∧
      aget 0 (applyCommitted mrs rss kv
        (ApplyMsg.command index op)).state.clientSeqMap op.cid = op.seq) ∧
    (¬ op.seq > aget 0 kv.clientSeqMap op.cid →
      (applyCommitted mrs rss kv (ApplyMsg.command index op)).state = kv) ∧
    (∃ op', (applyCommitted mrs rss kv (ApplyMsg.command index op)).delivered =
        some (index, op') ∧ op'.cid = op.cid ∧ op'.seq = op.seq) := by
  refine ⟨fun h => ⟨?_, ?_⟩, fun h => ?_, ?_⟩
  · simp [applyCommitted, h]
  · simp [applyCommitted, h]
  · simp [applyCommitted, h]
  · by_cases hg : op.type = GET <;>
      simp [applyCommitted, hg]

/-- C1 witness: a fresh Put (seq 3 over table value 2) is applied and
recorded; replaying seq 2 leaves the state unchanged but still delivers
a response at the submitted index. -/
theorem applyCommitted_dedup_gate_witness :
    ((applyCommitted 0 0 ⟨[], [(7, 2)]⟩
        (ApplyMsg.command 4 ⟨"Put", "x", "v", 7, 3⟩)).state =
      ⟨[("x", "v")], [(7, 3)]⟩) ∧
    ((applyCommitted 0 0 ⟨[("x", "v")], [(7, 3)]⟩
        (ApplyMsg.command 5 ⟨"Put", "x", "w", 7, 2⟩)).state =
      ⟨[("x", "v")], [(7, 3)]⟩) := by
  constructor
  · exact ((applyCommitted_dedup_gate 0 0 4 ⟨[], [(7, 2)]⟩
      ⟨"Put", "x", "v", 7, 3⟩).1 (by decide)).1.trans (by decide)
  · exact (applyCommitted_dedup_gate 0 0 5 ⟨[("x", "v")], [(7, 3)]⟩
      ⟨"Put", "x", "w", 7, 2⟩).2.1 (by decide)

/-- C2: when a committed command passes the dedup check, Put sets
`store[key]` to the value, Append sets it to the previous value
(default `""`) concatenated with the value, Get leaves the store
unchanged, and in all three cases `clientSeqMap[cid]` is set to the
command's sequence number. -/
theorem applyCommitted_transition (mrs rss index : Int) (kv : KVState) (op : Op)
    (h : op.seq > aget 0 kv.clientSeqMap op.cid) :
    (op.type = PUT →
      (applyCommitted mrs rss kv (ApplyMsg.command index op)).state.store =
        aset kv.store op.key op.value) ∧
    (op.type = APPEND →
      (applyCommitted mrs rss kv (ApplyMsg.command index op)).state.store =
        aset kv.store op.key (aget "" kv.store op.key ++ op.value)) ∧
    (op.type = GET →
      (applyCommitted mrs rss kv (ApplyMsg.command index op)).state.store =
        kv.store) ∧
    (applyCommitted mrs rss kv (ApplyMsg.command index op)).state.clientSeqMap =
      aset kv.clientSeqMap op.cid op.seq := by
  refine ⟨fun ht => ?_, fun ht => ?_, fun ht => ?_, ?_⟩ <;>
    simp_all [applyCommitted, GET, PUT, APPEND]

/-- C2 witness: applied Put, Append (onto an existing key and onto an
absent key) and Get transitions at concrete states. -/
theorem applyCommitted_transition_witness :
    ((applyCommitted 0 0 ⟨[("x", "a")], []⟩
        (ApplyMsg.command 1 ⟨"Put", "x", "b", 1, 1⟩)).state.store =
      [("x", "b")]) ∧
    ((applyCommitted 0 0 ⟨[("x", "a")], []⟩
        (ApplyMsg.command 1 ⟨"Append", "x", "b", 1, 1⟩)).state.store =
      [("x", "ab")]) ∧
    ((applyCommitted 0 0 ⟨[], []⟩
        (ApplyMsg.command 1 ⟨"Append", "y", "b", 1, 1⟩)).state.store =
      [("y", "b")]) ∧
    ((applyCommitted 0 0 ⟨[("x", "a")], []⟩
        (ApplyMsg.command 1 ⟨"Get", "x", "", 1, 1⟩)).state.store =
      [("x", "a")]) ∧
    ((applyCommitted 0 0 ⟨[("x", "a")], []⟩
        (ApplyMsg.command 1 ⟨"Get", "x", "", 1, 1⟩)).state.clientSeqMap =
      [(1, 1)]) := by
  refine ⟨?_, ?_, ?_, ?_, ?_⟩
  · exact ((applyCommitted_transition 0 0 1 ⟨[("x", "a")], []⟩
      ⟨"Put", "x", "b", 1, 1⟩ (by decide)).1 rfl).trans (by decide)
  · exact ((applyCommitted_transition 0 0 1 ⟨[("x", "a")], []⟩
      ⟨"Append", "x", "b", 1, 1⟩ (by decide)).2.1 rfl).trans (by decide)
  · exact ((applyCommitted_transition 0 0 1 ⟨[], []⟩
      ⟨"Append", "y", "b", 1, 1⟩ (by decide)).2.1 rfl).trans (by decide)
  · exact ((applyCommitted_transition 0 0 1 ⟨[("x", "a")], []⟩
      ⟨"Get", "x", "", 1, 1⟩ (by decide)).2.2.1 rfl)
  · exact ((applyCommitted_transition 0 0 1 ⟨[("x", "a")], []⟩
      ⟨"Get", "x", "", 1, 1⟩ (by decide)).2.2.2).trans (by decide)

/-- C3: for every committed Get command, applied or skipped as a
duplicate, the Value field of the command delivered into the wait cell
equals the store's value for the command's key at apply time (default
`""` when absent). -/
theorem get_delivered_current_value (mrs rss index : Int) (kv : KVState)
    (op : Op) (h : op.type = GET) :
    (applyCommitted mrs rss kv (ApplyMsg.command index op)).delivered =
      some (index, { op with value := aget "" (applyCommitted mrs rss kv (ApplyMsg.command index op)).state.store op.key }) := by
  simp [applyCommitted, h]

/-- C3 witness: a fresh Get and a duplicate Get both deliver the
store's current value for their key. -/
theorem get_delivered_current_value_witness :
    ((applyCommitted 0 0 ⟨[("x", "a")], []⟩
        (ApplyMsg.command 1 ⟨"Get", "x", "", 1, 1⟩)).delivered =
      some (1, ⟨"Get", "x", "a", 1, 1⟩)) ∧
    ((applyCommitted 0 0 ⟨[("x", "a")], [(1, 9)]⟩
        (ApplyMsg.command 2 ⟨"Get", "x", "", 1, 4⟩)).delivered =
      some (2, ⟨"Get", "x", "a", 1, 4⟩)) := by
  constructor
  · exact (get_delivered_current_value 0 0 1 ⟨[("x", "a")], []⟩
      ⟨"Get", "x", "", 1, 1⟩ rfl).trans (by decide)
  · exact (get_delivered_current_value 0 0 2 ⟨[("x", "a")], [(1, 9)]⟩
      ⟨"Get", "x", "", 1, 4⟩ rfl).trans (by decide)

/-- C10: one command-commit step leaves every store entry for a key
other than the command's key, and every `clientSeqMap` entry for a
client other than the command's client, unchanged. -/
theorem applyCommitted_frame (mrs rss index : Int) (kv : KVState) (op : Op)
    (k c : _) (hk : k ≠ op.key) (hc : c ≠ op.cid) :
    aget "" (applyCommitted mrs rss kv
        (ApplyMsg.command index op)).state.store k = aget "" kv.store k ∧
    aget 0 (applyCommitted mrs rss kv
        (ApplyMsg.command index op)).state.clientSeqMap c =
      aget 0 kv.clientSeqMap c := by
  simp only [applyCommitted]
  constructor
  · split_ifs <;> simp [aget_aset_ne _ _ _ _ _ hk]
  · split_ifs <;> simp [aget_aset_ne _ _ _ _ _ hc]

/-- C10 witness: an applied Put on key "x" by client 1 leaves key "y"
and client 2 untouched. -/
theorem applyCommitted_frame_witness :
    ("y" : String) ≠ "x" ∧ ((2 : Int) ≠ 1) ∧
    (aget "" (applyCommitted 0 0 ⟨[("y", "old")], [(2, 6)]⟩
        (ApplyMsg.command 1 ⟨"Put", "x", "v", 1, 1⟩)).state.store "y" =
      aget "" ([("y", "old")] : StoreMap) "y") ∧
    (aget 0 (applyCommitted 0 0 ⟨[("y", "old")], [(2, 6)]⟩
        (ApplyMsg.command 1 ⟨"Put", "x", "v", 1, 1⟩)).state.clientSeqMap 2 =
      aget 0 ([(2, 6)] : SeqMap) 2) :=
  ⟨by decide, by decide,
    (applyCommitted_frame 0 0 1 ⟨[("y", "old")], [(2, 6)]⟩
      ⟨"Put", "x", "v", 1, 1⟩ "y" 2 (by decide) (by decide)).1,
    (applyCommitted_frame 0 0 1 ⟨[("y", "old")], [(2, 6)]⟩
      ⟨"Put", "x", "v", 1, 1⟩ "y" 2 (by decide) (by decide)).2⟩

/-- C4: when the command delivered at the submitted index does not
match the handler's identity, both handlers leave the reply's result
code at its zero value `""` instead of reporting the leader-related
failure code: concretely, a Get by client 1 (seq 1) seeing client 2's
command (seq 7) at its index, and likewise for PutAppend. -/
theorem mismatch_leaves_reply_unset :
    (Get ⟨"x", 1, 1⟩ true
        (WaitOutcome.delivered ⟨"Put", "y", "z", 2, 7⟩)).err = "" ∧
    (PutAppend ⟨"x", "v", "Put", 1, 1⟩ true
        (WaitOutcome.delivered ⟨"Put", "y", "z", 2, 7⟩)).err = "" ∧
    ("" : String) ≠ ErrWrongLeader := by
  refine ⟨rfl, rfl, by decide⟩

/-- C5: a Get whose wait resolves before the timeout with a command
matching its own identity returns the delivered value, with result
`ErrNoKey` when that value is empty and `OK` when it is non-empty. -/
theorem get_match_result (args : GetArgs) (appliedOp : Op)
    (h : (Op.mk GET args.key "" args.cid args.seq).sameAs appliedOp = true) :
    (Get args true (WaitOutcome.delivered appliedOp)).value =
      appliedOp.value ∧
    (appliedOp.value = "" →
      (Get args true (WaitOutcome.delivered appliedOp)).err = ErrNoKey) ∧
    (appliedOp.value ≠ "" →
      (Get args true (WaitOutcome.delivered appliedOp)).err = OK) := by
  refine ⟨?_, fun hv => ?_, fun hv => ?_⟩
  · by_cases hv : appliedOp.value = "" <;> simp [Get, h, hv]
  · simp [Get, h, hv]
  · simp [Get, h, hv]

/-- C5 witness: a matching Get resolving to "a" returns (`OK`, "a");
a matching Get resolving to "" returns `NoSuchKey`. -/
theorem get_match_result_witness :
    ((Get ⟨"x", 1, 2⟩ true
        (WaitOutcome.delivered ⟨"Get", "x", "a", 1, 2⟩)).value = "a") ∧
    ((Get ⟨"x", 1, 2⟩ true
        (WaitOutcome.delivered ⟨"Get", "x", "a", 1, 2⟩)).err = OK) ∧
    ((Get ⟨"m", 1, 3⟩ true
        (WaitOutcome.delivered ⟨"Get", "m", "", 1, 3⟩)).err = ErrNoKey) :=
  ⟨(get_match_result ⟨"x", 1, 2⟩ ⟨"Get", "x", "a", 1, 2⟩ (by decide)).1,
    (get_match_result ⟨"x", 1, 2⟩ ⟨"Get", "x", "a", 1, 2⟩ (by decide)).2.2
      (by decide),
    (get_match_result ⟨"m", 1, 3⟩ ⟨"Get", "m", "", 1, 3⟩ (by decide)).2.1 rfl⟩

/-- C6: decoding the blob produced by encoding any store and
client-sequence map (store field first, then the map, sequentially)
reproduces both mappings exactly. -/
theorem snapshot_roundtrip (s : StoreMap) (c : SeqMap) :
    decodeSnapshot (getSnapshot ⟨s, c⟩) = some (s, c) := rfl

/-- C7: restoring a snapshot is atomic: an empty payload is a no-op, a
payload either of whose fields fails to decode leaves `store` and
`clientSeqMap` exactly as they were, and a payload whose two fields
both decode replaces both. -/
theorem readSnapshot_atomic (kv : KVState) (data : Blob) :
    (data = [] → readSnapshot kv data = kv) ∧
    (decodeSnapshot data = none → readSnapshot kv data = kv) ∧
    (∀ s c, decodeSnapshot data = some (s, c) →
      readSnapshot kv data = { store := s, clientSeqMap := c }) := by
  refine ⟨fun h => ?_, fun h => ?_, fun s c h => ?_⟩
  · simp [readSnapshot, h]
  · cases data with
    | nil => simp [readSnapshot]
    | cons f rest => simp [readSnapshot, h]
  · cases data with
    | nil => simp [decodeSnapshot] at h
    | cons f rest => simp [readSnapshot, h]

/-- C7 witness: an empty payload and a corrupt payload (fields in the
wrong order) leave a concrete state untouched; a well-formed payload
replaces both fields. -/
theorem readSnapshot_atomic_witness :
    (readSnapshot ⟨[("a", "b")], [(1, 2)]⟩ [] = ⟨[("a", "b")], [(1, 2)]⟩) ∧
    (readSnapshot ⟨[("a", "b")], [(1, 2)]⟩
        [Field.seqF [(9, 9)], Field.storeF []] = ⟨[("a", "b")], [(1, 2)]⟩) ∧
    (readSnapshot ⟨[("a", "b")], [(1, 2)]⟩
        (getSnapshot ⟨[("x", "y")], [(3, 4)]⟩) = ⟨[("x", "y")], [(3, 4)]⟩) :=
  ⟨(readSnapshot_atomic ⟨[("a", "b")], [(1, 2)]⟩ []).1 rfl,
    (readSnapshot_atomic ⟨[("a", "b")], [(1, 2)]⟩
      [Field.seqF [(9, 9)], Field.storeF []]).2.1 rfl,
    (readSnapshot_atomic ⟨[("a", "b")], [(1, 2)]⟩
      (getSnapshot ⟨[("x", "y")], [(3, 4)]⟩)).2.2 [("x", "y")] [(3, 4)] rfl⟩

/-- C8 counterexample: with `maxraftstate = -2` — a value that is not
the disabling sentinel `-1` — and Raft state size 0 exceeding
`0.7 * (-2)`, the claim as stated demands a compaction request, but
`snapshotCheck` issues none (the code's guard is `maxraftstate > -1`,
not `maxraftstate ≠ -1`). -/
theorem snapshotCheck_claim_cex :
    snapshotCheck (-2) 0 ⟨[], []⟩ 1 = none ∧
    ((-2 : Int) ≠ -1) ∧ ((0 : ℚ) > ((-2 : Int) : ℚ) * (7 / 10)) := by
  refine ⟨by norm_num [snapshotCheck], by decide, by norm_num⟩

/-- C8 amended: after applying a committed entry, a compaction request
carrying the just-applied index and a fresh snapshot is issued iff
`maxraftstate` is strictly greater than `-1` and the current Raft state
size exceeds `0.7 * maxraftstate`; in particular the sentinel `-1`
(and any smaller value) never issues one. -/
theorem snapshotCheck_spec (mrs rss : Int) (kv : KVState) (idx : Int) :
    (snapshotCheck mrs rss kv idx = some (idx, getSnapshot kv) ↔
      (mrs > -1 ∧ (rss : ℚ) > (mrs : ℚ) * (7 / 10))) ∧
    (¬ (mrs > -1 ∧ (rss : ℚ) > (mrs : ℚ) * (7 / 10)) →
      snapshotCheck mrs rss kv idx = none) ∧
    (mrs = -1 → snapshotCheck mrs rss kv idx = none) := by
  have hcast : ((mrs : ℚ) > -1) ↔ mrs > -1 := by
    constructor <;> intro hx <;> exact_mod_cast hx
  refine ⟨?_, fun h => ?_, fun h => ?_⟩
  · unfold snapshotCheck
    split_ifs with hc
    · exact ⟨fun _ => ⟨hcast.mp hc.1, hc.2⟩, fun _ => rfl⟩
    · constructor
      · intro hcontra
        exact absurd hcontra (by simp)
      · intro hr
        exact absurd ⟨hcast.mpr hr.1, hr.2⟩ hc
  · unfold snapshotCheck
    split_ifs with hc
    · exact absurd ⟨hcast.mp hc.1, hc.2⟩ h
    · rfl
  · subst h
    unfold snapshotCheck
    split_ifs with hc
    · exfalso
      have := hc.1
      norm_num at this
    · rfl

/-- C8 witness: the sentinel `-1` issues no request even at a huge
state size; `maxraftstate = 10` with state size 8 (exceeding 7) issues
the request with the fresh snapshot and the applied index. -/
theorem snapshotCheck_spec_witness :
    snapshotCheck (-1) 1000000 ⟨[], []⟩ 5 = none ∧
    snapshotCheck 10 8 ⟨[], []⟩ 5 =
      some (5, getSnapshot (⟨[], []⟩ : KVState)) :=
  ⟨(snapshotCheck_spec (-1) 1000000 ⟨[], []⟩ 5).2.2 rfl,
    (snapshotCheck_spec 10 8 ⟨[], []⟩ 5).1.mpr ⟨by norm_num, by norm_num⟩⟩

/-- C9 counterexample: a snapshot-install notification whose payload
records `clientSeqMap[1] = 1` replaces a state holding
`clientSeqMap[1] = 5`, strictly lowering client 1's stored sequence
number. -/
theorem restore_lowers_clientSeq :
    aget 0 ((applyCommitted 0 0 ⟨[], [(1, 5)]⟩
        (ApplyMsg.snapshot (getSnapshot ⟨[], [(1, 1)]⟩))).state).clientSeqMap 1 <
      aget 0 (KVState.mk [] [(1, 5)]).clientSeqMap 1 := by
  decide

/-- C9 amended: command application never lowers `clientSeqMap[c]` (it
writes only a strictly greater sequence number); snapshot restore
replaces the table wholesale, so it preserves per-client monotonicity
exactly when the decoded table's entry for `c` is at least the current
one (e.g. when the installed snapshot is no older than the state). -/
theorem clientSeq_monotone (mrs rss : Int) (kv : KVState) (c : Int) :
    (∀ index op, aget 0 kv.clientSeqMap c ≤
      aget 0 ((applyCommitted mrs rss kv
        (ApplyMsg.command index op)).state).clientSeqMap c) ∧
    (∀ data, (∀ s sc, decodeSnapshot data = some (s, sc) →
        aget 0 kv.clientSeqMap c ≤ aget 0 sc c) →
      aget 0 kv.clientSeqMap c ≤
        aget 0 ((applyCommitted mrs rss kv
          (ApplyMsg.snapshot data)).state).clientSeqMap c) := by
  constructor
  · intro index op
    by_cases hseq : op.seq > aget 0 kv.clientSeqMap op.cid
    · by_cases hc : c = op.cid
      · subst hc
        simp only [applyCommitted, if_pos hseq, aget_aset_self]
        exact le_of_lt hseq
      · simp [applyCommitted, hseq, aget_aset_ne _ _ _ _ _ hc]
    · simp [applyCommitted, hseq]
  · intro data hdom
    simp only [applyCommitted]
    unfold readSnapshot
    split_ifs with hlen
    · simp
    · cases hdec : decodeSnapshot data with
      | none => simp [hdec]
      | some p =>
          obtain ⟨s, sc⟩ := p
          simp only [hdec]
          exact hdom s sc hdec

/-- C9 amended witness: a fresh command raises client 1's entry from 2
to 9; restoring a snapshot whose table dominates the current one (7 ≥
2) keeps it non-decreasing. -/
theorem clientSeq_monotone_witness :
    (aget 0 (KVState.mk [] [(1, 2)]).clientSeqMap 1 ≤
      aget 0 ((applyCommitted 0 0 ⟨[], [(1, 2)]⟩
        (ApplyMsg.command 3 ⟨"Put", "x", "v", 1, 9⟩)).state).clientSeqMap 1) ∧
    (aget 0 (KVState.mk [] [(1, 2)]).clientSeqMap 1 ≤
      aget 0 ((applyCommitted 0 0 ⟨[], [(1, 2)]⟩
        (ApplyMsg.snapshot (getSnapshot ⟨[], [(1, 7)]⟩))).state).clientSeqMap 1) :=
  ⟨(clientSeq_monotone 0 0 ⟨[], [(1, 2)]⟩ 1).1 3 ⟨"Put", "x", "v", 1, 9⟩,
    (clientSeq_monotone 0 0 ⟨[], [(1, 2)]⟩ 1).2 (getSnapshot ⟨[], [(1, 7)]⟩)
      (by
        intro s sc h
        simp only [getSnapshot, decodeSnapshot, Option.some.injEq,
          Prod.mk.injEq] at h
        obtain ⟨h1, h2⟩ := h
        subst h2
        decide)⟩

end KVRaft
